import Mathlib

/-!
Verification of the zenml excerpt: the pipeline CLI
(src/zenml/cli/pipeline.py) and the scheduled-run example script
(examples/kubeflow_pipelines_orchestration/run_schedule.py).

The embedding models YAML values, a dynamically imported Python module as a
set of named attributes, `run_pipeline` as a trace-producing interpreter
(each construction / configuration / run call is an event), and the listing
commands over a repository state.  External collaborators that are only
declared here (the config key classes, the Repository and its views) are
modelled from the spec and marked as such.
-/

namespace ZenML

/-- A YAML value as produced by reading the configuration file. -/
inductive Yaml where
  | null : Yaml
  | bool (b : Bool) : Yaml
  | int (n : Int) : Yaml
  | str (s : String) : Yaml
  | list (xs : List Yaml) : Yaml
  | dict (entries : List (String × Yaml)) : Yaml

/-- Lookup in a YAML mapping (Python dict indexing; keys are unique, first
match wins). -/
def dictGet : List (String × Yaml) → String → Option Yaml
  | [], _ => none
  | (k, v) :: rest, key => if k = key then some v else dictGet rest key

/-- Python `isinstance(v, str)`. -/
def Yaml.isStr : Yaml → Bool
  | .str _ => true
  | _ => false

/-- Python `isinstance(v, dict)`. -/
def Yaml.isDict : Yaml → Bool
  | .dict _ => true
  | _ => false

/-- Python truthiness of an optional YAML value (`none` stands for an absent
key, i.e. Python `None` from `dict.get` with default `None`). -/
def truthy : Option Yaml → Bool
  | none => false
  | some .null => false
  | some (.bool b) => b
  | some (.int n) => n != 0
  | some (.str s) => !s.isEmpty
  | some (.list xs) => !xs.isEmpty
  | some (.dict d) => !d.isEmpty

/-- The Python exceptions this slice of the CLI can raise. -/
inductive PyError where
  | pipelineConfigurationError (msg : String)
  | keyError (key : String)
  | attributeError (msg : String)
  | typeError (msg : String)
deriving DecidableEq, Repr

/-- A dynamically imported Python module: its `__file__` and the names of
its attributes.  Attribute values (classes, materializers) are identified by
their attribute name. -/
structure Module where
  file : String
  attrs : List String
deriving DecidableEq, Repr

/-- Python `hasattr(module, name)`. -/
def Module.hasAttr (m : Module) (name : String) : Bool :=
  m.attrs.contains name

/-- `_get_module_attribute` from src/zenml/cli/pipeline.py: `getattr` on the
module, turning `AttributeError` into `PipelineConfigurationError` naming the
attribute and the module file. -/
def _get_module_attribute (module : Module) (attribute_name : String) :
    Except PyError String :=
  if module.hasAttr attribute_name then
    Except.ok attribute_name
  else
    Except.error (PyError.pipelineConfigurationError
      ("Unable to load '" ++ attribute_name ++ "' from file '"
        ++ module.file ++ "'"))

/-- A materializer assignment made by the CLI: a single materializer for
all outputs, or one materializer per output name. -/
inductive Materializers where
  | single (attr : String)
  | perOutput (outputs : List (String × String))
deriving DecidableEq, Repr

/-- A step instance built by the CLI: the class it was constructed from and
the materializers set on it, if any. -/
structure StepInstance where
  sourceClass : String
  returnMaterializers : Option Materializers
deriving DecidableEq, Repr

/-- `BaseStep.with_return_materializers`: returns the step with the given
materializers recorded. -/
def StepInstance.with_return_materializers (s : StepInstance)
    (m : Materializers) : StepInstance :=
  ⟨s.sourceClass, some m⟩

/-- Modelled from the spec: the YAML key under which the pipeline class name
is configured ("reads a YAML config describing which classes to instantiate";
`PipelineConfigurationKeys.NAME` is declared outside this excerpt). -/
def PipelineConfigurationKeys.NAME : String := "name"

/-- Modelled from the spec: the YAML key holding the mapping of steps
(`PipelineConfigurationKeys.STEPS` is declared outside this excerpt). -/
def PipelineConfigurationKeys.STEPS : String := "steps"

/-- Modelled from the spec: the YAML key holding a step's source class name
("a unit of work with a source class"; `StepConfigurationKeys.SOURCE_` is
declared outside this excerpt). -/
def StepConfigurationKeys.SOURCE_ : String := "source"

/-- Modelled from the spec: the YAML key holding a step's optional
materializers ("optional materializers for its outputs";
`StepConfigurationKeys.MATERIALIZERS_` is declared outside this excerpt). -/
def StepConfigurationKeys.MATERIALIZERS_ : String := "materializers"

/-- Modelled from the spec: `PipelineConfigurationKeys.key_check` (declared
in zenml.config.config_keys, outside this excerpt) validates that the YAML
configuration is a mapping providing the pipeline name and the steps
mapping, raising `PipelineConfigurationError` otherwise. -/
def PipelineConfigurationKeys.key_check (config : Yaml) :
    Except PyError Unit :=
  match config with
  | .dict d =>
    if (dictGet d PipelineConfigurationKeys.NAME).isSome
        && (dictGet d PipelineConfigurationKeys.STEPS).isSome then
      Except.ok ()
    else
      Except.error (PyError.pipelineConfigurationError
        "Missing required keys in the pipeline configuration.")
  | _ =>
    Except.error (PyError.typeError
      "The pipeline configuration must be a mapping.")

/-- Modelled from the spec: `StepConfigurationKeys.key_check` (declared in
zenml.config.config_keys, outside this excerpt) validates that a step
configuration is a mapping providing the step's source; materializers stay
optional. -/
def StepConfigurationKeys.key_check (step_config : Yaml) :
    Except PyError Unit :=
  match step_config with
  | .dict d =>
    if (dictGet d StepConfigurationKeys.SOURCE_).isSome then
      Except.ok ()
    else
      Except.error (PyError.pipelineConfigurationError
        "Missing required keys in a step configuration.")
  | _ =>
    Except.error (PyError.typeError
      "A step configuration must be a mapping.")

/-- The observable actions of `run_pipeline`: constructing a step instance,
setting its materializers, constructing the pipeline with its keyword
arguments, configuring it from the config file, and running it. -/
inductive Event where
  | constructStep (cls : String)
  | withReturnMaterializers (cls : String) (m : Materializers)
  | constructPipeline (cls : String) (steps : List (String × StepInstance))
  | withConfig (config_path : String) (overwrite_step_parameters : Bool)
  | run
deriving DecidableEq, Repr

/-- Events emitted while building step instances (as opposed to
constructing, configuring or running the pipeline itself). -/
def Event.isStepEvent : Event → Bool
  | .constructStep _ => true
  | .withReturnMaterializers _ _ => true
  | _ => false

/-- Whether an event is the `run()` call. -/
def Event.isRun : Event → Bool
  | .run => true
  | _ => false

/-- `getattr` requires a string attribute name; any other value raises
`TypeError`. -/
def asAttrName : Yaml → Except PyError String
  | .str s => Except.ok s
  | _ => Except.error (PyError.typeError "attribute name must be string")

/-- The dict comprehension of lines 105-108: resolve each output's
materializer source through `_get_module_attribute`. -/
def resolveMaterializerDict (module : Module) :
    List (String × Yaml) → Except PyError (List (String × String))
  | [] => Except.ok []
  | (output_name, source) :: rest =>
    match asAttrName source with
    | .error e => Except.error e
    | .ok s =>
      match _get_module_attribute module s with
      | .error e => Except.error e
      | .ok attr =>
        match resolveMaterializerDict module rest with
        | .error e => Except.error e
        | .ok tail => Except.ok ((output_name, attr) :: tail)

/-- Lines 94-118 of run_pipeline: the handling of a step's materializers
configuration.  A falsy value is skipped; a truthy string resolves to a
single materializer; a truthy dict maps output names to materializers; any
other truthy value raises `PipelineConfigurationError`. -/
def resolveMaterializers (module : Module)
    (materializers_config : Option Yaml) :
    Except PyError (Option Materializers) :=
  if truthy materializers_config then
    match materializers_config with
    | some (.str s) =>
      match _get_module_attribute module s with
      | .error e => Except.error e
      | .ok attr => Except.ok (some (Materializers.single attr))
    | some (.dict d) =>
      match resolveMaterializerDict module d with
      | .error e => Except.error e
      | .ok outputs => Except.ok (some (Materializers.perOutput outputs))
    | _ =>
      Except.error (PyError.pipelineConfigurationError
        "Only str and dict values are allowed for the materializers attribute of a step configuration.")
  else
    Except.ok none

/-- The body of the steps loop (lines 89-120) for one entry: key check,
source lookup, step construction, materializer wiring.  Returns the events
that occurred and the step instance (or the exception raised). -/
def processStep (module : Module) (step_config : Yaml) :
    List Event × Except PyError StepInstance :=
  match StepConfigurationKeys.key_check step_config with
  | .error e => ([], Except.error e)
  | .ok () =>
    match step_config with
    | .dict sc =>
      match dictGet sc StepConfigurationKeys.SOURCE_ with
      | none => ([], Except.error (PyError.keyError StepConfigurationKeys.SOURCE_))
      | some sourceVal =>
        match asAttrName sourceVal with
        | .error e => ([], Except.error e)
        | .ok src =>
          match _get_module_attribute module src with
          | .error e => ([], Except.error e)
          | .ok step_class =>
            match resolveMaterializers module
                (dictGet sc StepConfigurationKeys.MATERIALIZERS_) with
            | .error e => ([Event.constructStep step_class], Except.error e)
            | .ok none =>
              ([Event.constructStep step_class],
               Except.ok ⟨step_class, none⟩)
            | .ok (some m) =>
              ([Event.constructStep step_class,
                Event.withReturnMaterializers step_class m],
               Except.ok (StepInstance.with_return_materializers
                 ⟨step_class, none⟩ m))
    | _ => ([], Except.error (PyError.typeError "A step configuration must be a mapping."))

/-- The steps loop (lines 85-120) over the entries of the steps mapping, in
order; an exception aborts the loop, keeping the events already emitted. -/
def processSteps (module : Module) :
    List (String × Yaml) → List Event × Except PyError (List (String × StepInstance))
  | [] => ([], Except.ok [])
  | (step_name, step_config) :: rest =>
    match processStep module step_config with
    | (evs, .error e) => (evs, Except.error e)
    | (evs, .ok inst) =>
      match processSteps module rest with
      | (evs2, .error e) => (evs ++ evs2, Except.error e)
      | (evs2, .ok steps) => (evs ++ evs2, Except.ok ((step_name, inst) :: steps))

/-- `run_pipeline` from src/zenml/cli/pipeline.py (lines 71-126), over an
already imported module and already read YAML config: key check, pipeline
class lookup, the steps loop, then pipeline construction, `with_config`
with `overwrite_step_parameters=True`, and `run()`.  Returns the event
trace and the outcome. -/
def run_pipeline (module : Module) (config : Yaml) (config_path : String) :
    List Event × Except PyError Unit :=
  match PipelineConfigurationKeys.key_check config with
  | .error e => ([], Except.error e)
  | .ok () =>
    match config with
    | .dict cfg =>
      match dictGet cfg PipelineConfigurationKeys.NAME with
      | none => ([], Except.error (PyError.keyError PipelineConfigurationKeys.NAME))
      | some nameVal =>
        match asAttrName nameVal with
        | .error e => ([], Except.error e)
        | .ok pipeline_name =>
          match _get_module_attribute module pipeline_name with
          | .error e => ([], Except.error e)
          | .ok pipeline_class =>
            match dictGet cfg PipelineConfigurationKeys.STEPS with
            | none => ([], Except.error (PyError.keyError PipelineConfigurationKeys.STEPS))
            | some stepsVal =>
              match stepsVal with
              | .dict stepConfigs =>
                match processSteps module stepConfigs with
                | (evs, .error e) => (evs, Except.error e)
                | (evs, .ok steps) =>
                  (evs ++ [Event.constructPipeline pipeline_class steps,
                           Event.withConfig config_path true,
                           Event.run],
                   Except.ok ())
              | _ => ([], Except.error (PyError.attributeError "items"))
    | _ => ([], Except.error (PyError.typeError "The pipeline configuration must be a mapping."))

/-- Modelled from the spec: a pipeline view returned by the repository
("external service tracking pipeline and run metadata"): its id, its name
and its run names, as consumed by the CLI via `_id`, `_name` and
`get_run_names()`. -/
structure PipelineView where
  id : Nat
  name : String
  runNames : List String
deriving DecidableEq, Repr

/-- Modelled from the spec: the state of the repository / metadata store:
the registered projects and the tracked pipelines (each with its runs). -/
structure Repo where
  projects : List String
  pipelines : List PipelineView
deriving DecidableEq, Repr

/-- An operation invoked on the repository / metadata store.  The four
query operations are the ones the CLI uses; `registerPipeline` stands for
the mutating operations by which the store comes to track metadata
(modelled from the spec, which only says the store tracks pipeline and run
metadata). -/
inductive RepoOp where
  | getProject (name : String)
  | getPipelines (stack_name project : Option String)
  | getPipeline (name : String) (stack_name : Option String)
  | getRunNames (pipeline_name : String)
  | registerPipeline (p : PipelineView)
deriving DecidableEq, Repr

/-- Whether a repository operation is a pure query. -/
def RepoOp.isQuery : RepoOp → Bool
  | .registerPipeline _ => false
  | _ => true

/-- The effect of a repository operation on the store's state: queries
leave it unchanged, registration adds a pipeline. -/
def Repo.applyOp (r : Repo) : RepoOp → Repo
  | .registerPipeline p => ⟨r.projects, r.pipelines ++ [p]⟩
  | _ => r

/-- Modelled from the spec: `zen_store.get_project` raises `KeyError` for an
unknown project. -/
def Repo.get_project (r : Repo) (name : String) : Except PyError Unit :=
  if r.projects.contains name then Except.ok ()
  else Except.error (PyError.keyError name)

/-- Modelled from the spec: `Repository.get_pipelines` returns the tracked
pipelines, in the store's order; the stack and project arguments select the
store being queried and are recorded in the operation trace. -/
def Repo.get_pipelines (r : Repo) (_stack_name _project : Option String) :
    List PipelineView :=
  r.pipelines

/-- Modelled from the spec: `Repository.get_pipeline` returns the first
tracked pipeline with the given name, or `None`. -/
def Repo.get_pipeline (r : Repo) (name : String)
    (_stack_name : Option String) : Option PipelineView :=
  r.pipelines.find? (fun p => p.name == name)

/-- What a listing command prints: `cli_utils.error` (terminating the
command), `cli_utils.print_table`, or `cli_utils.declare`.  A table row is
its column/value pairs in order. -/
inductive CliOutput where
  | errorExit (msg : String)
  | printedTable (rows : List (List (String × String)))
  | declare (msg : String)
deriving DecidableEq, Repr

/-- Line 144: one table row per pipeline, its id rendered as a string and
its name. -/
def pipelinesTable (pipelines : List PipelineView) :
    List (List (String × String)) :=
  pipelines.map (fun p => [("ID", toString p.id), ("NAME", p.name)])

/-- `list_pipelines` from src/zenml/cli/pipeline.py (lines 132-149):
optional project existence check, pipeline query, table or declaration.
Returns the repository operations invoked, in order, and the output. -/
def list_pipelines (repo : Repo) (project : Option String)
    (stack : Option String) : List RepoOp × CliOutput :=
  match project with
  | some proj =>
    match repo.get_project proj with
    | .error _ =>
      ([RepoOp.getProject proj],
       CliOutput.errorExit ("No such project: '" ++ proj ++ "'"))
    | .ok () =>
      let table := pipelinesTable (repo.get_pipelines stack (some proj))
      ([RepoOp.getProject proj, RepoOp.getPipelines stack (some proj)],
       if table.isEmpty then
         CliOutput.declare ("No pipelines found for project '" ++ proj ++ "'.")
       else CliOutput.printedTable table)
  | none =>
    let table := pipelinesTable (repo.get_pipelines stack none)
    ([RepoOp.getPipelines stack none],
     if table.isEmpty then CliOutput.declare "No pipelines found."
     else CliOutput.printedTable table)

/-- Lines 170-173: one row per run name of the given pipeline, paired with
the pipeline argument itself. -/
def runsTableFor (pipeline : String) (run_names : List String) :
    List (List (String × String)) :=
  run_names.map (fun n => [("PIPELINE", pipeline), ("RUN", n)])

/-- Lines 175-179: one row per (pipeline, run) pair, pipelines in the order
returned by `get_pipelines`, runs in the order returned by
`get_run_names`. -/
def runsTableAll (pipelines : List PipelineView) :
    List (List (String × String)) :=
  (pipelines.map (fun p => runsTableFor p.name p.runNames)).flatten

/-- `list_runs` from src/zenml/cli/pipeline.py (lines 160-184): with a
pipeline argument, resolve it (error if unknown) and list its runs; without
one, list every pipeline's runs.  Returns the repository operations
invoked, in order, and the output. -/
def list_runs (repo : Repo) (pipeline : Option String)
    (stack : Option String) : List RepoOp × CliOutput :=
  match pipeline with
  | some pname =>
    match repo.get_pipeline pname stack with
    | none =>
      ([RepoOp.getPipeline pname stack],
       CliOutput.errorExit ("No pipeline named " ++ pname ++ " found."))
    | some pv =>
      let table := runsTableFor pname pv.runNames
      ([RepoOp.getPipeline pname stack, RepoOp.getRunNames pv.name],
       if table.isEmpty then
         CliOutput.declare ("No pipeline runs found for pipeline '" ++ pname ++ "'.")
       else CliOutput.printedTable table)
  | none =>
    let ps := repo.get_pipelines none none
    let table := runsTableAll ps
    ([RepoOp.getPipelines none none] ++ ps.map (fun p => RepoOp.getRunNames p.name),
     if table.isEmpty then CliOutput.declare "No pipeline runs found."
     else CliOutput.printedTable table)

/-- A schedule as constructed by the example script: start time, end time
and interval, in seconds (datetimes are modelled as seconds). -/
structure Schedule where
  start_time : Nat
  end_time : Nat
  interval_second : Nat
deriving DecidableEq, Repr

/-- `timedelta(minutes=m)` in seconds. -/
def timedeltaMinutes (m : Nat) : Nat := m * 60

/-- A step instance constructed by the example script: the step it
instantiates and a unique id distinguishing fresh instances. -/
structure ExampleStep where
  cls : String
  uid : Nat
deriving DecidableEq, Repr

/-- The `mnist_pipeline` instance of the example script: its four steps,
bound by keyword. -/
structure MnistPipeline where
  importer : ExampleStep
  normalizer : ExampleStep
  trainer : ExampleStep
  evaluator : ExampleStep
deriving DecidableEq, Repr

/-- The `__main__` block of
examples/kubeflow_pipelines_orchestration/run_schedule.py, parameterized by
the two successive `datetime.now()` samples (the script calls
`datetime.now()` once for `start_time` and again for `end_time`).  Step
constructors run left to right, yielding four fresh instances; the result
pairs the pipeline with the list of `run()` calls, each carrying its
schedule. -/
def run_schedule_main (now1 now2 : Nat) : MnistPipeline × List Schedule :=
  let p : MnistPipeline :=
    ⟨⟨"importer", 0⟩, ⟨"normalizer", 1⟩, ⟨"trainer", 2⟩, ⟨"evaluator", 3⟩⟩
  (p, [⟨now1, now2 + timedeltaMinutes 10, 60⟩])

/-- A module like the `pipeline.py` a user would pass to the CLI: used as a
concrete evaluation point. -/
def exampleModule : Module :=
  ⟨"pipeline.py",
   ["my_pipeline", "ImporterStep", "TrainerStep",
    "MyMaterializer", "OtherMaterializer"]⟩

/-- A configuration like the YAML a user would pass to the CLI: used as a
concrete evaluation point. -/
def exampleConfig : Yaml :=
  Yaml.dict
    [("name", Yaml.str "my_pipeline"),
     ("steps", Yaml.dict
       [("importer", Yaml.dict [("source", Yaml.str "ImporterStep")]),
        ("trainer", Yaml.dict
          [("source", Yaml.str "TrainerStep"),
           ("materializers", Yaml.str "MyMaterializer")])])]

/-- A repository state with two pipelines and one project: used as a
concrete evaluation point. -/
def exampleRepo : Repo :=
  ⟨["default"],
   [⟨1, "mnist_pipeline", ["run_a", "run_b"]⟩, ⟨2, "other_pipeline", ["run_c"]⟩]⟩

theorem Repo.applyOp_query (r : Repo) (op : RepoOp) (h : op.isQuery = true) :
    r.applyOp op = r := by
  cases op <;> simp [RepoOp.isQuery] at h ⊢ <;> rfl

theorem foldl_applyOp_queries (ops : List RepoOp)
    (h : ∀ op ∈ ops, op.isQuery = true) :
    ∀ r : Repo, ops.foldl Repo.applyOp r = r := by
  induction ops with
  | nil => intro r; rfl
  | cons op rest ih =>
    intro r
    rw [List.foldl_cons, Repo.applyOp_query r op (h op (by simp))]
    exact ih (fun o ho => h o (by simp [ho])) r

/-- C8: `_get_module_attribute` returns the module attribute when it exists
and raises `PipelineConfigurationError` (never `AttributeError`) when it
does not, with a message naming the attribute and the module file. -/
theorem get_module_attribute_spec (module : Module) (attribute_name : String) :
    (module.hasAttr attribute_name = true →
      _get_module_attribute module attribute_name = Except.ok attribute_name) ∧
    (module.hasAttr attribute_name = false →
      _get_module_attribute module attribute_name =
        Except.error (PyError.pipelineConfigurationError
          ("Unable to load '" ++ attribute_name ++ "' from file '"
            ++ module.file ++ "'"))) := by
  unfold _get_module_attribute
  constructor <;> intro h <;> simp [h]

/-- C2: the listing commands query the repository / metadata store
read-only: every operation they invoke is one of the query operations
(get_project, get_pipelines, get_pipeline, get_run_names), and applying the
invoked operations to the repository state leaves it unchanged. -/
theorem listing_commands_read_only (repo : Repo)
    (project stack stack2 pipeline : Option String) :
    (∀ op ∈ (list_pipelines repo project stack).1, op.isQuery = true) ∧
    (∀ op ∈ (list_runs repo pipeline stack2).1, op.isQuery = true) ∧
    (list_pipelines repo project stack).1.foldl Repo.applyOp repo = repo ∧
    (list_runs repo pipeline stack2).1.foldl Repo.applyOp repo = repo := by
  have h1 : ∀ op ∈ (list_pipelines repo project stack).1, op.isQuery = true := by
    cases project with
    | none => simp [list_pipelines, RepoOp.isQuery]
    | some proj =>
      cases h : repo.get_project proj <;>
        simp [list_pipelines, h, RepoOp.isQuery]
  have h2 : ∀ op ∈ (list_runs repo pipeline stack2).1, op.isQuery = true := by
    cases pipeline with
    | none =>
      intro op hop
      simp [list_runs] at hop
      rcases hop with rfl | ⟨p, _, rfl⟩ <;> rfl
    | some pname =>
      cases h : repo.get_pipeline pname stack2 <;>
        simp [list_runs, h, RepoOp.isQuery]
  exact ⟨h1, h2, foldl_applyOp_queries _ h1 repo, foldl_applyOp_queries _ h2 repo⟩

/-- C10: with a --project option, `list_pipelines` first looks the project
up in the zen store; an unknown project terminates the command with a "No
such project" error and the repository is never queried for pipelines;
without --project no project lookup happens. -/
theorem list_pipelines_project_guard (repo : Repo) (proj : String)
    (stack : Option String) :
    (repo.projects.contains proj = false →
      list_pipelines repo (some proj) stack =
        ([RepoOp.getProject proj],
         CliOutput.errorExit ("No such project: '" ++ proj ++ "'")) ∧
      (∀ s p, RepoOp.getPipelines s p ∉ (list_pipelines repo (some proj) stack).1)) ∧
    (∀ n, RepoOp.getProject n ∉ (list_pipelines repo none stack).1) := by
  constructor
  · intro h
    have h' : proj ∉ repo.projects := by simpa using h
    have hrun : list_pipelines repo (some proj) stack =
        ([RepoOp.getProject proj],
         CliOutput.errorExit ("No such project: '" ++ proj ++ "'")) := by
      simp [list_pipelines, Repo.get_project, h']
    refine ⟨hrun, ?_⟩
    intro s p
    rw [hrun]
    simp
  · intro n
    simp [list_pipelines]

/-- C6: `list_pipelines` prints one table row per returned pipeline, in
order, each row holding the pipeline's id rendered as a string and its
name; with no pipelines it prints a "No pipelines found" declaration,
mentioning the project when one was given, and no table. -/
theorem list_pipelines_rows (repo : Repo) (proj : String)
    (stack : Option String) :
    (repo.projects.contains proj = true →
      (repo.pipelines ≠ [] →
        (list_pipelines repo (some proj) stack).2 =
          CliOutput.printedTable
            (repo.pipelines.map
              (fun p => [("ID", toString p.id), ("NAME", p.name)]))) ∧
      (repo.pipelines = [] →
        (list_pipelines repo (some proj) stack).2 =
          CliOutput.declare ("No pipelines found for project '" ++ proj ++ "'."))) ∧
    ((repo.pipelines ≠ [] →
      (list_pipelines repo none stack).2 =
        CliOutput.printedTable
          (repo.pipelines.map
            (fun p => [("ID", toString p.id), ("NAME", p.name)]))) ∧
     (repo.pipelines = [] →
      (list_pipelines repo none stack).2 =
        CliOutput.declare "No pipelines found.")) := by
  refine ⟨fun hp => ?_, fun hne => ?_, fun he => ?_⟩
  · have hp' : proj ∈ repo.projects := by simpa using hp
    refine ⟨fun hne => ?_, fun he => ?_⟩ <;>
      simp [list_pipelines, Repo.get_project, Repo.get_pipelines,
        pipelinesTable, List.isEmpty_iff, hp', *]
  · simp [list_pipelines, Repo.get_pipelines, pipelinesTable,
      List.isEmpty_iff, hne]
  · simp [list_pipelines, Repo.get_pipelines, pipelinesTable,
      List.isEmpty_iff, he]

/-- C7: `list_runs` without a pipeline argument prints one row per
(pipeline, run) pair, pipelines in the order returned by get_pipelines and
runs in the order returned by get_run_names; with a pipeline argument that
resolves, one row per run name of that pipeline, paired with the argument;
with no rows it prints a "No pipeline runs found" declaration instead. -/
theorem list_runs_rows (repo : Repo) (pname : String)
    (stack : Option String) :
    ((repo.pipelines.map
        (fun p => p.runNames.map
          (fun n => [("PIPELINE", p.name), ("RUN", n)]))).flatten ≠ [] →
      (list_runs repo none stack).2 =
        CliOutput.printedTable
          ((repo.pipelines.map
            (fun p => p.runNames.map
              (fun n => [("PIPELINE", p.name), ("RUN", n)]))).flatten)) ∧
    ((repo.pipelines.map
        (fun p => p.runNames.map
          (fun n => [("PIPELINE", p.name), ("RUN", n)]))).flatten = [] →
      (list_runs repo none stack).2 =
        CliOutput.declare "No pipeline runs found.") ∧
    (∀ pv, repo.get_pipeline pname stack = some pv →
      (pv.runNames ≠ [] →
        (list_runs repo (some pname) stack).2 =
          CliOutput.printedTable
            (pv.runNames.map (fun n => [("PIPELINE", pname), ("RUN", n)]))) ∧
      (pv.runNames = [] →
        (list_runs repo (some pname) stack).2 =
          CliOutput.declare
            ("No pipeline runs found for pipeline '" ++ pname ++ "'."))) := by
  refine ⟨fun hne => ?_, fun he => ?_, fun pv hpv => ⟨fun hne => ?_, fun he => ?_⟩⟩ <;>
    simp [list_runs, Repo.get_pipelines, runsTableAll, runsTableFor,
      List.isEmpty_iff, *]

/-- C5 counterexample: with clock samples 0 and 1 for the two
datetime.now() calls, the produced schedule's end_time is 601 seconds while
its start_time plus 10 minutes is 600 seconds, so "end_time equals
start_time plus 10 minutes" fails. -/
theorem run_schedule_window_cex :
    ((run_schedule_main 0 1).2.map Schedule.end_time) = [601] ∧
    ((run_schedule_main 0 1).2.map
      (fun s => s.start_time + timedeltaMinutes 10)) = [600] ∧
    (601 : Nat) ≠ 600 := by
  refine ⟨rfl, rfl, by decide⟩

/-- C5 (amended): the example script builds one pipeline instance from
exactly four freshly constructed step instances (importer, normalizer,
trainer, evaluator) and calls run() on it exactly once with a Schedule
whose interval_second is 60 and whose end_time is the second
datetime.now() sample plus 10 minutes; with a monotone clock that is at
least start_time plus 10 minutes, and exactly start_time plus 10 minutes
when both datetime.now() calls return the same time. -/
theorem run_schedule_main_spec (now1 now2 : Nat) :
    (run_schedule_main now1 now2).1 =
      ⟨⟨"importer", 0⟩, ⟨"normalizer", 1⟩, ⟨"trainer", 2⟩, ⟨"evaluator", 3⟩⟩ ∧
    [(run_schedule_main now1 now2).1.importer.uid,
     (run_schedule_main now1 now2).1.normalizer.uid,
     (run_schedule_main now1 now2).1.trainer.uid,
     (run_schedule_main now1 now2).1.evaluator.uid].Nodup ∧
    (run_schedule_main now1 now2).2 =
      [⟨now1, now2 + timedeltaMinutes 10, 60⟩] ∧
    (run_schedule_main now1 now2).2.length = 1 ∧
    (∀ s ∈ (run_schedule_main now1 now2).2,
      s.interval_second = 60 ∧ s.start_time = now1 ∧
      s.end_time = now2 + timedeltaMinutes 10) ∧
    (now1 ≤ now2 →
      now1 + timedeltaMinutes 10 ≤ now2 + timedeltaMinutes 10) ∧
    (now1 = now2 → now2 + timedeltaMinutes 10 = now1 + timedeltaMinutes 10) := by
  refine ⟨rfl, by simp [run_schedule_main], rfl, rfl, ?_,
    fun h => by omega, fun h => by omega⟩
  intro s hs
  simp [run_schedule_main] at hs
  subst hs
  exact ⟨rfl, rfl, rfl⟩

theorem get_module_attribute_ok (module : Module) (name attr : String)
    (h : _get_module_attribute module name = Except.ok attr) :
    attr = name ∧ module.hasAttr name = true := by
  unfold _get_module_attribute at h
  cases hb : module.hasAttr name <;> rw [hb] at h <;> simp_all

theorem asAttrName_ok (v : Yaml) (s : String)
    (h : asAttrName v = Except.ok s) : v = Yaml.str s := by
  cases v <;> simp_all [asAttrName]

theorem processStep_events (module : Module) (yc : Yaml) :
    ∀ ev ∈ (processStep module yc).1, ev.isStepEvent = true := by
  unfold processStep
  repeat' split
  all_goals simp [Event.isStepEvent]

theorem processSteps_events (module : Module) :
    ∀ l, ∀ ev ∈ (processSteps module l).1, ev.isStepEvent = true := by
  intro l
  induction l with
  | nil => intro ev hev; simp [processSteps] at hev
  | cons x rest ih =>
    obtain ⟨step_name, step_config⟩ := x
    intro ev hev
    simp only [processSteps] at hev
    rcases hs : processStep module step_config with ⟨evs1, res1⟩
    rw [hs] at hev
    have hstep : ∀ e ∈ evs1, Event.isStepEvent e = true := by
      intro e he
      have := processStep_events module step_config e
      rw [hs] at this
      exact this he
    cases res1 with
    | error e => exact hstep ev hev
    | ok inst =>
      rcases hr : processSteps module rest with ⟨evs2, res2⟩
      rw [hr] at hev
      have hih : ∀ e ∈ evs2, Event.isStepEvent e = true := by
        intro e he
        have := ih e
        rw [hr] at this
        exact this he
      cases res2 with
      | error e =>
        simp at hev
        rcases hev with hv | hv
        · exact hstep ev hv
        · exact hih ev hv
      | ok steps =>
        simp at hev
        rcases hev with hv | hv
        · exact hstep ev hv
        · exact hih ev hv

theorem processStep_eq (module : Module) (sc : List (String × Yaml))
    (src : String)
    (hsrc : dictGet sc StepConfigurationKeys.SOURCE_ = some (Yaml.str src))
    (hattr : module.hasAttr src = true) :
    processStep module (Yaml.dict sc) =
      (match resolveMaterializers module
          (dictGet sc StepConfigurationKeys.MATERIALIZERS_) with
       | .error e => ([Event.constructStep src], Except.error e)
       | .ok none => ([Event.constructStep src], Except.ok ⟨src, none⟩)
       | .ok (some m) =>
         ([Event.constructStep src, Event.withReturnMaterializers src m],
          Except.ok (StepInstance.with_return_materializers ⟨src, none⟩ m))) := by
  rcases hm : resolveMaterializers module
      (dictGet sc StepConfigurationKeys.MATERIALIZERS_) with e | om
  · simp [processStep, StepConfigurationKeys.key_check, hsrc, asAttrName,
      _get_module_attribute, hattr, hm]
  · cases om <;>
      simp [processStep, StepConfigurationKeys.key_check, hsrc, asAttrName,
        _get_module_attribute, hattr, hm, StepInstance.with_return_materializers]

theorem processStep_ok_sourceClass (module : Module) (yc : Yaml)
    (evs : List Event) (inst : StepInstance)
    (h : processStep module yc = (evs, Except.ok inst)) :
    ∃ d src, yc = Yaml.dict d ∧
      dictGet d StepConfigurationKeys.SOURCE_ = some (Yaml.str src) ∧
      inst.sourceClass = src ∧
      _get_module_attribute module src = Except.ok inst.sourceClass := by
  cases yc with
  | dict sc =>
    refine ⟨sc, ?_⟩
    cases hd : dictGet sc StepConfigurationKeys.SOURCE_ with
    | none => simp [processStep, StepConfigurationKeys.key_check, hd] at h
    | some sourceVal =>
      cases sourceVal with
      | str src =>
        cases hb : module.hasAttr src with
        | false =>
          simp [processStep, StepConfigurationKeys.key_check, hd, asAttrName,
            _get_module_attribute, hb] at h
        | true =>
          rw [processStep_eq module sc src hd hb] at h
          rcases hm : resolveMaterializers module
              (dictGet sc StepConfigurationKeys.MATERIALIZERS_) with e | om
          · rw [hm] at h; simp at h
          · rw [hm] at h
            cases om with
            | none =>
              simp at h
              obtain ⟨-, rfl⟩ := h
              exact ⟨src, rfl, rfl, rfl, by simp [_get_module_attribute, hb]⟩
            | some m =>
              simp [StepInstance.with_return_materializers] at h
              obtain ⟨-, rfl⟩ := h
              exact ⟨src, rfl, rfl, rfl, by simp [_get_module_attribute, hb]⟩
      | null => simp [processStep, StepConfigurationKeys.key_check, hd, asAttrName] at h
      | bool b => simp [processStep, StepConfigurationKeys.key_check, hd, asAttrName] at h
      | int n => simp [processStep, StepConfigurationKeys.key_check, hd, asAttrName] at h
      | list xs => simp [processStep, StepConfigurationKeys.key_check, hd, asAttrName] at h
      | dict d2 => simp [processStep, StepConfigurationKeys.key_check, hd, asAttrName] at h
  | null => simp [processStep, StepConfigurationKeys.key_check] at h
  | bool b => simp [processStep, StepConfigurationKeys.key_check] at h
  | int n => simp [processStep, StepConfigurationKeys.key_check] at h
  | str s => simp [processStep, StepConfigurationKeys.key_check] at h
  | list xs => simp [processStep, StepConfigurationKeys.key_check] at h

theorem processSteps_ok_spec (module : Module) :
    ∀ (l : List (String × Yaml)) (evs : List Event)
      (steps : List (String × StepInstance)),
      processSteps module l = (evs, Except.ok steps) →
      List.Forall₂
        (fun sc st => sc.1 = st.1 ∧
          ∃ d src, sc.2 = Yaml.dict d ∧
            dictGet d StepConfigurationKeys.SOURCE_ = some (Yaml.str src) ∧
            _get_module_attribute module src = Except.ok st.2.sourceClass)
        l steps := by
  intro l
  induction l with
  | nil =>
    intro evs steps h
    simp [processSteps] at h
    simp [h.2.symm]
  | cons x rest ih =>
    intro evs steps h
    obtain ⟨step_name, step_config⟩ := x
    simp only [processSteps] at h
    rcases hs : processStep module step_config with ⟨evs1, res1⟩
    rw [hs] at h
    cases res1 with
    | error e => simp at h
    | ok inst =>
      rcases hr : processSteps module rest with ⟨evs2, res2⟩
      rw [hr] at h
      cases res2 with
      | error e => simp at h
      | ok steps2 =>
        simp at h
        obtain ⟨-, hst⟩ := h
        rw [← hst]
        refine List.Forall₂.cons ?_ (ih evs2 steps2 hr)
        obtain ⟨d, src, hyc, hsrc, hcls, hattr⟩ :=
      processStep_ok_sourceClass module step_config evs1 inst hs
        exact ⟨rfl, d, src, hyc, hsrc, hattr⟩

theorem processSteps_append_ok (module : Module) :
    ∀ (l1 l2 : List (String × Yaml)) (evs1 : List Event)
      (s1 : List (String × StepInstance)),
      processSteps module l1 = (evs1, Except.ok s1) →
      processSteps module (l1 ++ l2) =
        (evs1 ++ (processSteps module l2).1,
         match (processSteps module l2).2 with
         | .error e => Except.error e
         | .ok s2 => Except.ok (s1 ++ s2)) := by
  intro l1
  induction l1 with
  | nil =>
    intro l2 evs1 s1 h
    simp [processSteps] at h
    obtain ⟨h1, h2⟩ := h
    subst h1
    subst h2
    simp only [List.nil_append]
    rcases h2 : processSteps module l2 with ⟨evs2, res2⟩
    cases res2 <;> simp
  | cons x rest ih =>
    intro l2 evs1 s1 h
    obtain ⟨sn, sc⟩ := x
    simp only [processSteps, List.cons_append, List.append_eq] at h ⊢
    rcases hs : processStep module sc with ⟨evsx, resx⟩
    try rw [hs] at h
    try rw [hs]
    cases resx with
    | error e => simp at h
    | ok inst =>
      dsimp only at h ⊢
      rcases hr : processSteps module rest with ⟨evsr, resr⟩
      try rw [hr] at h
      cases resr with
      | error e => simp at h
      | ok sr =>
        simp at h
        obtain ⟨hevs, hsteps⟩ := h
        rw [ih l2 evsr sr hr]
        rcases his : processSteps module l2 with ⟨evs2, res2⟩
        try rw [his]
        cases res2 <;> simp [← hevs, ← hsteps, List.append_assoc]

theorem run_pipeline_error_events (module : Module) (config : Yaml)
    (config_path : String) :
    ∀ evs e, run_pipeline module config config_path = (evs, Except.error e) →
      ∀ ev ∈ evs, ev.isStepEvent = true := by
  intro evs e h
  cases config with
  | null =>
    simp [run_pipeline, PipelineConfigurationKeys.key_check] at h
    rcases h with ⟨h1, h2⟩; subst h1; simp
  | bool b =>
    simp [run_pipeline, PipelineConfigurationKeys.key_check] at h
    rcases h with ⟨h1, h2⟩; subst h1; simp
  | int n =>
    simp [run_pipeline, PipelineConfigurationKeys.key_check] at h
    rcases h with ⟨h1, h2⟩; subst h1; simp
  | str s =>
    simp [run_pipeline, PipelineConfigurationKeys.key_check] at h
    rcases h with ⟨h1, h2⟩; subst h1; simp
  | list xs =>
    simp [run_pipeline, PipelineConfigurationKeys.key_check] at h
    rcases h with ⟨h1, h2⟩; subst h1; simp
  | dict cfg =>
    cases hn : dictGet cfg PipelineConfigurationKeys.NAME with
    | none =>
      simp [run_pipeline, PipelineConfigurationKeys.key_check, hn] at h
      rcases h with ⟨h1, h2⟩; subst h1; simp
    | some nameVal =>
      cases hst : dictGet cfg PipelineConfigurationKeys.STEPS with
      | none =>
        simp [run_pipeline, PipelineConfigurationKeys.key_check, hn, hst] at h
        rcases h with ⟨h1, h2⟩; subst h1; simp
      | some stepsVal =>
        cases nameVal with
        | str nm =>
          cases hb : module.hasAttr nm with
          | false =>
            simp [run_pipeline, PipelineConfigurationKeys.key_check, hn, hst,
              asAttrName, _get_module_attribute, hb] at h
            rcases h with ⟨h1, h2⟩; subst h1; simp
          | true =>
            cases stepsVal with
            | dict stepConfigs =>
              rcases hp : processSteps module stepConfigs with ⟨evs0, res0⟩
              cases res0 with
              | error e0 =>
                simp [run_pipeline, PipelineConfigurationKeys.key_check, hn,
                  hst, asAttrName, _get_module_attribute, hb, hp] at h
                rcases h with ⟨h1, h2⟩
                subst h1
                intro ev hev
                have := processSteps_events module stepConfigs ev
                rw [hp] at this
                exact this hev
              | ok steps =>
                simp [run_pipeline, PipelineConfigurationKeys.key_check, hn,
                  hst, asAttrName, _get_module_attribute, hb, hp] at h
            | null =>
              simp [run_pipeline, PipelineConfigurationKeys.key_check, hn, hst,
                asAttrName, _get_module_attribute, hb] at h
              rcases h with ⟨h1, h2⟩; subst h1; simp
            | bool b =>
              simp [run_pipeline, PipelineConfigurationKeys.key_check, hn, hst,
                asAttrName, _get_module_attribute, hb] at h
              rcases h with ⟨h1, h2⟩; subst h1; simp
            | int n =>
              simp [run_pipeline, PipelineConfigurationKeys.key_check, hn, hst,
                asAttrName, _get_module_attribute, hb] at h
              rcases h with ⟨h1, h2⟩; subst h1; simp
            | str s2 =>
              simp [run_pipeline, PipelineConfigurationKeys.key_check, hn, hst,
                asAttrName, _get_module_attribute, hb] at h
              rcases h with ⟨h1, h2⟩; subst h1; simp
            | list xs =>
              simp [run_pipeline, PipelineConfigurationKeys.key_check, hn, hst,
                asAttrName, _get_module_attribute, hb] at h
              rcases h with ⟨h1, h2⟩; subst h1; simp
        | null =>
          simp [run_pipeline, PipelineConfigurationKeys.key_check, hn, hst,
            asAttrName] at h
          rcases h with ⟨h1, h2⟩; subst h1; simp
        | bool b =>
          simp [run_pipeline, PipelineConfigurationKeys.key_check, hn, hst,
            asAttrName] at h
          rcases h with ⟨h1, h2⟩; subst h1; simp
        | int n =>
          simp [run_pipeline, PipelineConfigurationKeys.key_check, hn, hst,
            asAttrName] at h
          rcases h with ⟨h1, h2⟩; subst h1; simp
        | list xs =>
          simp [run_pipeline, PipelineConfigurationKeys.key_check, hn, hst,
            asAttrName] at h
          rcases h with ⟨h1, h2⟩; subst h1; simp
        | dict d2 =>
          simp [run_pipeline, PipelineConfigurationKeys.key_check, hn, hst,
            asAttrName] at h
          rcases h with ⟨h1, h2⟩; subst h1; simp

/-- C1: for a configuration that passes the key checks (its entries give
the pipeline name as a string and the steps as a mapping) and whose
attribute lookups succeed, `run_pipeline` builds one instance per steps
entry from the class looked up via the entry's source value, passes the
step-name-to-instance mapping (in order) to the pipeline class named by
the config's name value, configures it from the config path with
overwrite_step_parameters=True, and calls run() exactly once. -/
theorem run_pipeline_success (module : Module) (cfg : List (String × Yaml))
    (config_path pipeline_name pipeline_class : String)
    (stepConfigs : List (String × Yaml)) (evs : List Event)
    (steps : List (String × StepInstance))
    (hname : dictGet cfg PipelineConfigurationKeys.NAME =
      some (Yaml.str pipeline_name))
    (hsteps : dictGet cfg PipelineConfigurationKeys.STEPS =
      some (Yaml.dict stepConfigs))
    (hclass : _get_module_attribute module pipeline_name =
      Except.ok pipeline_class)
    (hproc : processSteps module stepConfigs = (evs, Except.ok steps)) :
    PipelineConfigurationKeys.key_check (Yaml.dict cfg) = Except.ok () ∧
    run_pipeline module (Yaml.dict cfg) config_path =
      (evs ++ [Event.constructPipeline pipeline_class steps,
               Event.withConfig config_path true, Event.run],
       Except.ok ()) ∧
    List.Forall₂
      (fun sc st => sc.1 = st.1 ∧
        ∃ d src, sc.2 = Yaml.dict d ∧
          dictGet d StepConfigurationKeys.SOURCE_ = some (Yaml.str src) ∧
          _get_module_attribute module src = Except.ok st.2.sourceClass)
      stepConfigs steps ∧
    (evs ++ [Event.constructPipeline pipeline_class steps,
             Event.withConfig config_path true, Event.run]).countP
      Event.isRun = 1 := by
  have hkc : PipelineConfigurationKeys.key_check (Yaml.dict cfg) =
      Except.ok () := by
    simp [PipelineConfigurationKeys.key_check, hname, hsteps]
  refine ⟨hkc, ?_, processSteps_ok_spec module stepConfigs evs steps hproc, ?_⟩
  · simp [run_pipeline, hkc, hname, hsteps, asAttrName, hclass, hproc]
  · rw [List.countP_append]
    have h0 : evs.countP Event.isRun = 0 := by
      rw [List.countP_eq_zero]
      intro ev hev
      have hstep := processSteps_events module stepConfigs ev
      rw [hproc] at hstep
      have := hstep hev
      cases ev <;> simp_all [Event.isRun, Event.isStepEvent]
    simp [h0, List.countP_cons, Event.isRun]

/-- C1 witness: the run command evaluated on a concrete module and
configuration. -/
theorem run_pipeline_success_witness :
    run_pipeline exampleModule exampleConfig "config.yaml" =
      ([Event.constructStep "ImporterStep",
        Event.constructStep "TrainerStep",
        Event.withReturnMaterializers "TrainerStep"
          (Materializers.single "MyMaterializer"),
        Event.constructPipeline "my_pipeline"
          [("importer", ⟨"ImporterStep", none⟩),
           ("trainer", ⟨"TrainerStep",
             some (Materializers.single "MyMaterializer")⟩)],
        Event.withConfig "config.yaml" true,
        Event.run],
       Except.ok ()) :=
  (run_pipeline_success exampleModule
    [("name", Yaml.str "my_pipeline"),
     ("steps", Yaml.dict
       [("importer", Yaml.dict [("source", Yaml.str "ImporterStep")]),
        ("trainer", Yaml.dict
          [("source", Yaml.str "TrainerStep"),
           ("materializers", Yaml.str "MyMaterializer")])])]
    "config.yaml" "my_pipeline" "my_pipeline"
    [("importer", Yaml.dict [("source", Yaml.str "ImporterStep")]),
     ("trainer", Yaml.dict
       [("source", Yaml.str "TrainerStep"),
        ("materializers", Yaml.str "MyMaterializer")])]
    [Event.constructStep "ImporterStep",
     Event.constructStep "TrainerStep",
     Event.withReturnMaterializers "TrainerStep"
       (Materializers.single "MyMaterializer")]
    [("importer", ⟨"ImporterStep", none⟩),
     ("trainer", ⟨"TrainerStep",
       some (Materializers.single "MyMaterializer")⟩)]
    rfl rfl rfl rfl).2.1

/-- C4: when the configured pipeline name or a step's source value does not
name an attribute of the imported module, `run_pipeline` raises
PipelineConfigurationError before the pipeline is constructed or run: every
error outcome has a trace without constructPipeline, with_config or run
events, and both missing-attribute scenarios end in exactly that
PipelineConfigurationError. -/
theorem run_pipeline_config_error_atomic (module : Module)
    (cfg : List (String × Yaml)) (config_path : String) :
    (∀ config evs e,
      run_pipeline module config config_path = (evs, Except.error e) →
      (∀ cls steps, Event.constructPipeline cls steps ∉ evs) ∧
      (∀ path b, Event.withConfig path b ∉ evs) ∧
      Event.run ∉ evs) ∧
    (∀ pipeline_name stepsVal,
      dictGet cfg PipelineConfigurationKeys.NAME =
        some (Yaml.str pipeline_name) →
      dictGet cfg PipelineConfigurationKeys.STEPS = some stepsVal →
      module.hasAttr pipeline_name = false →
      run_pipeline module (Yaml.dict cfg) config_path =
        ([], Except.error (PyError.pipelineConfigurationError
          ("Unable to load '" ++ pipeline_name ++ "' from file '"
            ++ module.file ++ "'")))) ∧
    (∀ pipeline_name pre sname sc rest evs0 steps0 src,
      dictGet cfg PipelineConfigurationKeys.NAME =
        some (Yaml.str pipeline_name) →
      dictGet cfg PipelineConfigurationKeys.STEPS =
        some (Yaml.dict (pre ++ (sname, Yaml.dict sc) :: rest)) →
      module.hasAttr pipeline_name = true →
      processSteps module pre = (evs0, Except.ok steps0) →
      dictGet sc StepConfigurationKeys.SOURCE_ = some (Yaml.str src) →
      module.hasAttr src = false →
      run_pipeline module (Yaml.dict cfg) config_path =
        (evs0, Except.error (PyError.pipelineConfigurationError
          ("Unable to load '" ++ src ++ "' from file '"
            ++ module.file ++ "'")))) := by
  refine ⟨?_, ?_, ?_⟩
  · intro config evs e h
    have hall := run_pipeline_error_events module config config_path evs e h
    refine ⟨?_, ?_, ?_⟩
    · intro cls steps hmem
      have := hall _ hmem
      simp [Event.isStepEvent] at this
    · intro path b hmem
      have := hall _ hmem
      simp [Event.isStepEvent] at this
    · intro hmem
      have := hall _ hmem
      simp [Event.isStepEvent] at this
  · intro pipeline_name stepsVal hname hsteps hattr
    simp [run_pipeline, PipelineConfigurationKeys.key_check, hname, hsteps,
      asAttrName, _get_module_attribute, hattr]
  · intro pipeline_name pre sname sc rest evs0 steps0 src hname hsteps hattr
      hpre hsrc hnosrc
    have hstep : processStep module (Yaml.dict sc) =
        ([], Except.error (PyError.pipelineConfigurationError
          ("Unable to load '" ++ src ++ "' from file '"
            ++ module.file ++ "'"))) := by
      simp [processStep, StepConfigurationKeys.key_check, hsrc, asAttrName,
        _get_module_attribute, hnosrc]
    have hfail : processSteps module ((sname, Yaml.dict sc) :: rest) =
        ([], Except.error (PyError.pipelineConfigurationError
          ("Unable to load '" ++ src ++ "' from file '"
            ++ module.file ++ "'"))) := by
      simp only [processSteps]
      rw [hstep]
    have happ := processSteps_append_ok module pre
      ((sname, Yaml.dict sc) :: rest) evs0 steps0 hpre
    rw [hfail] at happ
    simp at happ
    simp [run_pipeline, PipelineConfigurationKeys.key_check, hname, hsteps,
      asAttrName, _get_module_attribute, hattr, happ]

/-- C3: a step's materializers configuration is optional; when present and
non-empty it must be a string (resolved to a single materializer attribute
of the module and passed to with_return_materializers) or a dict (each
output name mapped to the module attribute named by its value); any other
truthy value makes the run raise PipelineConfigurationError. -/
theorem materializers_configuration (module : Module) :
    resolveMaterializers module none = Except.ok none ∧
    (∀ s, s ≠ "" →
      resolveMaterializers module (some (Yaml.str s)) =
        (match _get_module_attribute module s with
         | .error e => Except.error e
         | .ok attr => Except.ok (some (Materializers.single attr)))) ∧
    (∀ d, d ≠ [] →
      resolveMaterializers module (some (Yaml.dict d)) =
        (match resolveMaterializerDict module d with
         | .error e => Except.error e
         | .ok outputs =>
           Except.ok (some (Materializers.perOutput outputs)))) ∧
    (∀ d outputs, resolveMaterializerDict module d = Except.ok outputs →
      List.Forall₂
        (fun (p : String × Yaml) (q : String × String) =>
          p.1 = q.1 ∧ ∃ s, p.2 = Yaml.str s ∧
            _get_module_attribute module s = Except.ok q.2)
        d outputs) ∧
    (∀ v, truthy (some v) = true → v.isStr = false → v.isDict = false →
      resolveMaterializers module (some v) =
        Except.error (PyError.pipelineConfigurationError
          "Only str and dict values are allowed for the materializers attribute of a step configuration.")) ∧
    (∀ sc src m,
      dictGet sc StepConfigurationKeys.SOURCE_ = some (Yaml.str src) →
      module.hasAttr src = true →
      resolveMaterializers module
        (dictGet sc StepConfigurationKeys.MATERIALIZERS_) =
          Except.ok (some m) →
      processStep module (Yaml.dict sc) =
        ([Event.constructStep src, Event.withReturnMaterializers src m],
         Except.ok (StepInstance.with_return_materializers ⟨src, none⟩ m))) ∧
    (∀ sc src e,
      dictGet sc StepConfigurationKeys.SOURCE_ = some (Yaml.str src) →
      module.hasAttr src = true →
      resolveMaterializers module
        (dictGet sc StepConfigurationKeys.MATERIALIZERS_) =
          Except.error e →
      processStep module (Yaml.dict sc) =
        ([Event.constructStep src], Except.error e)) := by
  refine ⟨rfl, ?_, ?_, ?_, ?_, ?_, ?_⟩
  · intro s hs
    have he : s.isEmpty = false := by
      cases h : s.isEmpty
      · rfl
      · exact absurd ((String.isEmpty_iff s).mp h) hs
    simp [resolveMaterializers, truthy, he]
  · intro d hd
    have he : d.isEmpty = false := by
      cases h : d.isEmpty
      · rfl
      · exact absurd (List.isEmpty_iff.mp h) hd
    simp [resolveMaterializers, truthy, he]
  · intro d
    induction d with
    | nil =>
      intro outputs h
      simp [resolveMaterializerDict] at h
      simp [h.symm]
    | cons x rest ih =>
      intro outputs h
      obtain ⟨output_name, source⟩ := x
      cases source with
      | str s =>
        cases hb : module.hasAttr s with
        | false =>
          simp [resolveMaterializerDict, asAttrName, _get_module_attribute,
            hb] at h
        | true =>
          rcases hr : resolveMaterializerDict module rest with e | tail
          · simp [resolveMaterializerDict, asAttrName, _get_module_attribute,
              hb, hr] at h
          · simp [resolveMaterializerDict, asAttrName, _get_module_attribute,
              hb, hr] at h
            rw [← h]
            exact List.Forall₂.cons
              ⟨rfl, s, rfl, by simp [_get_module_attribute, hb]⟩
              (ih tail hr)
      | null => simp [resolveMaterializerDict, asAttrName] at h
      | bool b => simp [resolveMaterializerDict, asAttrName] at h
      | int n => simp [resolveMaterializerDict, asAttrName] at h
      | list xs => simp [resolveMaterializerDict, asAttrName] at h
      | dict d2 => simp [resolveMaterializerDict, asAttrName] at h
  · intro v ht hs hd
    cases v <;> simp_all [Yaml.isStr, Yaml.isDict, resolveMaterializers, truthy]
  · intro sc src m hsrc hb hm
    rw [processStep_eq module sc src hsrc hb, hm]
  · intro sc src e hsrc hb hm
    rw [processStep_eq module sc src hsrc hb, hm]

/-- C9: a falsy materializers value in a step configuration (absent key,
None, empty string, or empty dict) is treated the same as no materializers
at all: with_return_materializers is not called and the step instance is
exactly the one constructed from its source class. -/
theorem falsy_materializers_skipped (module : Module) :
    (∀ mc, truthy mc = false →
      resolveMaterializers module mc = Except.ok none) ∧
    truthy none = false ∧
    truthy (some Yaml.null) = false ∧
    truthy (some (Yaml.str "")) = false ∧
    truthy (some (Yaml.dict [])) = false ∧
    (∀ sc src,
      dictGet sc StepConfigurationKeys.SOURCE_ = some (Yaml.str src) →
      module.hasAttr src = true →
      truthy (dictGet sc StepConfigurationKeys.MATERIALIZERS_) = false →
      processStep module (Yaml.dict sc) =
        ([Event.constructStep src], Except.ok ⟨src, none⟩)) := by
  have hres : ∀ mc, truthy mc = false →
      resolveMaterializers module mc = Except.ok none := by
    intro mc h
    simp [resolveMaterializers, h]
  refine ⟨hres, rfl, rfl, by decide, rfl, ?_⟩
  intro sc src hsrc hb hfalsy
  rw [processStep_eq module sc src hsrc hb, hres _ hfalsy]

end ZenML
